import Mathlib

/-!
Shallow embedding of `src/AdminGuesser.tsx`: the `AdminResourcesGuesser`
reconciler and the `AdminGuesser` introspection orchestrator, together with
theorems settling the specification claims about them.

The child-partitioning helpers (`getRoutesAndResourcesFromNodes`,
`isSingleChildFunction`) are imported by the source from a sibling module
that is not part of the sources available here; they are modelled from the
spec, using the tagged-variant representation of declared children the spec
itself prescribes for statically-typed targets.
-/

namespace AdminGuesserSpec

/-- One API resource schema descriptor; the reconciler uses only `name` and
the `deprecated` flag (an absent flag behaves as `false` in the source's
truthiness test, so it is collapsed into the boolean). -/
structure Resource where
  name : String
  deprecated : Bool
deriving DecidableEq, Repr

/-- A declared child element, as a closed tagged variant: an explicit
resource-declaration element, a custom-route element, any other element,
or a generated per-resource view (`ResourceGuesser name key`) element. -/
inductive ChildNode where
  | resourceDecl (name : String)
  | customRoute (id : Nat)
  | other (id : Nat)
  | guessed (name : String) (key : String)
deriving DecidableEq, Repr

/-- The `children` prop: either a single render-prop function (identified
abstractly by a token) or a sequence of declared element nodes. -/
inductive Children where
  | func (id : Nat)
  | nodes (ns : List ChildNode)
deriving DecidableEq, Repr

def ChildNode.isResourceDecl : ChildNode → Bool
  | .resourceDecl _ => true
  | _ => false

def ChildNode.isCustomRoute : ChildNode → Bool
  | .customRoute _ => true
  | _ => false

/-- Modelled from the spec: `getRoutesAndResourcesFromNodes` (imported by the
source from `./getRoutesAndResourcesFromNodes.js`, whose code is not among the
available sources) scans the declared child tree and partitions it into
recognized resource-declaration elements and recognized custom-route elements,
each preserving original order. A render-prop function holds no element
nodes, so both groups are empty for it. Returns `(resources, customRoutes)`. -/
def getRoutesAndResourcesFromNodes : Children → List ChildNode × List ChildNode
  | .func _ => ([], [])
  | .nodes ns => (ns.filter ChildNode.isResourceDecl, ns.filter ChildNode.isCustomRoute)

/-- Modelled from the spec: `isSingleChildFunction` (same missing module)
recognizes the render-prop pattern, i.e. `children` being a single function. -/
def isSingleChildFunction : Children → Bool
  | .func _ => true
  | .nodes _ => false

/-- The value rendered by `AdminResourcesGuesser`: either the loading
placeholder alone, or the framework root admin element wrapping the decided
child set. -/
inductive RenderResult where
  | loadingPage
  | adminEl (children : Children)
deriving DecidableEq, Repr

/-- The props of `AdminResourcesGuesser` that its logic consumes
(framework pass-through props are forwarded unchanged and omitted). -/
structure AdminResourcesGuesserProps where
  loading : Bool
  includeDeprecated : Bool
  resources : List Resource
  children : Children
deriving DecidableEq, Repr

/-- `AdminResourcesGuesser` (src lines 67-109). If `loading`, return the
loading placeholder at once. Otherwise partition the declared children; when
`children` is not a single function and no explicit resource-declaration
children were found, synthesize the child set: the custom routes followed by
one generated view per (filtered) resource keyed by its name. `resources` is
a required array prop, so the source's truthiness test on it always passes.
The `displayOverrideCode` call is diagnostic only and does not affect the
rendered value. -/
def AdminResourcesGuesser (p : AdminResourcesGuesserProps) : RenderResult :=
  if p.loading then
    .loadingPage
  else
    let parts := getRoutesAndResourcesFromNodes p.children
    let resourceChildren := parts.1
    let customRoutes := parts.2
    let adminChildren :=
      if !(isSingleChildFunction p.children) && resourceChildren.length == 0 then
        let guessResources :=
          if p.includeDeprecated then p.resources
          else p.resources.filter (fun r => !r.deprecated)
        Children.nodes
          (customRoutes ++ guessResources.map (fun r => ChildNode.guessed r.name r.name))
      else
        p.children
    .adminEl adminChildren

/-- Errors carried by a rejected introspection future (opaque payload). -/
abbrev Err := String

/-- The payload of a successful `introspect()` resolution: `{ data }` with an
optional `resources` list. -/
structure IntrospectData where
  resources : Option (List Resource)
deriving DecidableEq, Repr

/-- What the data-provider's `introspect()` future does when invoked. -/
inductive FetchOutcome where
  | success (data : IntrospectData)
  | failure (e : Err)
deriving DecidableEq, Repr

/-- The data-provider collaborator: whether it exposes an `introspect`
function, and the outcome of calling it. -/
structure DataProvider where
  hasIntrospect : Bool
  outcome : FetchOutcome
deriving DecidableEq, Repr

/-- The orchestrator's state hooks (src lines 132-135): the resource list,
the loading flag, the queued error (a `some e` means a throwing updater was
queued by `setError` and `e` is rethrown on the next render), and the
`introspect` pending flag. -/
structure OrchestratorState where
  resources : List Resource
  loading : Bool
  error : Option Err
  introspect : Bool
deriving DecidableEq, Repr

/-- Initial hook state (src lines 132-135). -/
def initialState : OrchestratorState :=
  { resources := [], loading := true, error := none, introspect := true }

/-- The observable outcome of one execution of the orchestrator's effect:
whether the missing-`introspect` configuration error was thrown, whether
`dataProvider.introspect()` was invoked, and the resulting hook state once
the issued future (if any) settled. -/
structure EffectOutcome where
  configErrorThrown : Bool
  introspectCalled : Bool
  state : OrchestratorState
deriving DecidableEq, Repr

/-- The orchestrator's effect body (src lines 137-161). Validation of the
data-provider comes first and throws, aborting the effect, when `introspect`
is not a function. Next the pending guard returns without fetching when the
`introspect` flag is false. Otherwise `introspect()` is invoked: on success
the resources are replaced by `data.resources ?? []`, the pending flag is
cleared and `loading` is cleared; on rejection only a throwing updater is
queued (`setError(() => { throw error })`), recorded as `error := some e`. -/
def runEffect (dp : DataProvider) (s : OrchestratorState) : EffectOutcome :=
  if !dp.hasIntrospect then
    { configErrorThrown := true, introspectCalled := false, state := s }
  else if !s.introspect then
    { configErrorThrown := false, introspectCalled := false, state := s }
  else
    match dp.outcome with
    | .success d =>
        { configErrorThrown := false, introspectCalled := true,
          state := { s with resources := d.resources.getD [], introspect := false,
                            loading := false } }
    | .failure e =>
        { configErrorThrown := false, introspectCalled := true,
          state := { s with error := some e } }

/-- One render of `AdminGuesser` (src lines 173-202) as seen through the
enclosing error boundary: if a throwing updater was queued by the rejection
path, the render throws that very error; otherwise it delegates to
`AdminResourcesGuesser` with the current state. -/
def AdminGuesserRender (s : OrchestratorState) (children : Children)
    (includeDeprecated : Bool) : Except Err RenderResult :=
  match s.error with
  | some e => Except.error e
  | none =>
      Except.ok (AdminResourcesGuesser
        { loading := s.loading, includeDeprecated := includeDeprecated,
          resources := s.resources, children := children })

/-- The action performed by the shared introspection capability
(src lines 163-171): `setLoading(true); setIntrospect(true)`. -/
def capabilityIntrospect (s : OrchestratorState) : OrchestratorState :=
  { s with loading := true, introspect := true }

/-- The `useMemo` wrapping of the capability object (src lines 163-171):
given the dependency pair (the identities of `setLoading` and
`setIntrospect`), the cached `(deps, identity)` entry if any, and the
identity a fresh object would get, return the capability object's identity:
the cached one exactly when the dependencies are unchanged. -/
def introspectionContextMemo (deps : Nat × Nat)
    (cache : Option ((Nat × Nat) × Nat)) (fresh : Nat) : Nat :=
  match cache with
  | some c => if c.1 = deps then c.2 else fresh
  | none => fresh

/-- Claim C1: in the guessing branch (no render-prop function, no explicit
resource-declaration children), with `includeDeprecated = false` the
synthesized per-resource child set is the generated views over exactly the
non-deprecated resources of `R` — an order-preserving sublist of `R` that
contains no deprecated resource and every non-deprecated one — while with
`includeDeprecated = true` it covers every resource of `R` in original
order; an empty `R` with no children yields an empty generated set. -/
theorem guessing_branch_filters_deprecated (R : List Resource)
    (ns : List ChildNode) (hnr : ns.filter ChildNode.isResourceDecl = []) :
    (AdminResourcesGuesser
        { loading := false, includeDeprecated := false, resources := R,
          children := .nodes ns }
      = .adminEl (.nodes (ns.filter ChildNode.isCustomRoute
          ++ (R.filter (fun r => !r.deprecated)).map
              (fun r => ChildNode.guessed r.name r.name)))
      ∧ List.Sublist (R.filter (fun r => !r.deprecated)) R
      ∧ (∀ r ∈ R.filter (fun r => !r.deprecated), r.deprecated = false)
      ∧ (∀ r ∈ R, r.deprecated = false →
          r ∈ R.filter (fun r => !r.deprecated)))
    ∧ AdminResourcesGuesser
        { loading := false, includeDeprecated := true, resources := R,
          children := .nodes ns }
      = .adminEl (.nodes (ns.filter ChildNode.isCustomRoute
          ++ R.map (fun r => ChildNode.guessed r.name r.name)))
    ∧ AdminResourcesGuesser
        { loading := false, includeDeprecated := false, resources := [],
          children := .nodes [] }
      = .adminEl (.nodes []) := by
  refine ⟨⟨?_, List.filter_sublist R, ?_, ?_⟩, ?_, ?_⟩
  · simp [AdminResourcesGuesser, getRoutesAndResourcesFromNodes,
      isSingleChildFunction, hnr]
  · intro r hr
    simpa using List.of_mem_filter hr
  · intro r hr hdep
    exact List.mem_filter.mpr ⟨hr, by simp [hdep]⟩
  · simp [AdminResourcesGuesser, getRoutesAndResourcesFromNodes,
      isSingleChildFunction, hnr]
  · simp [AdminResourcesGuesser, getRoutesAndResourcesFromNodes,
      isSingleChildFunction]

/-- Witness for C1 at the spec scenario: `R = [books (live), reviews
(deprecated)]`, no children; `includeDeprecated = false` yields only the
generated books view, and an empty `R` yields an empty generated set. -/
theorem guessing_branch_filters_deprecated_witness :
    AdminResourcesGuesser
        { loading := false, includeDeprecated := false,
          resources := [{ name := "books", deprecated := false },
                        { name := "reviews", deprecated := true }],
          children := .nodes [] }
      = .adminEl (.nodes [.guessed "books" "books"])
    ∧ AdminResourcesGuesser
        { loading := false, includeDeprecated := false, resources := [],
          children := .nodes [] }
      = .adminEl (.nodes []) := by
  have h := guessing_branch_filters_deprecated
    [{ name := "books", deprecated := false },
     { name := "reviews", deprecated := true }] [] rfl
  exact ⟨by simpa using h.1.1, h.2.2⟩

/-- Claim C2: with `loading = false`, if the declared children contain at
least one explicit resource-declaration element, the guessed path never
executes and the declared children are rendered unmodified, regardless of
`resources`. -/
theorem explicit_declarations_win (b : Bool) (R : List Resource)
    (ns : List ChildNode) (c : ChildNode) (hc : c ∈ ns)
    (hdecl : c.isResourceDecl = true) :
    AdminResourcesGuesser
        { loading := false, includeDeprecated := b, resources := R,
          children := .nodes ns }
      = .adminEl (.nodes ns) := by
  have hne : ns.filter ChildNode.isResourceDecl ≠ [] := by
    intro h
    have hmem : c ∈ ns.filter ChildNode.isResourceDecl :=
      List.mem_filter.mpr ⟨hc, hdecl⟩
    simp [h] at hmem
  have hlen : (ns.filter ChildNode.isResourceDecl).length ≠ 0 := by
    simpa [List.length_eq_zero] using hne
  simp [AdminResourcesGuesser, getRoutesAndResourcesFromNodes,
    isSingleChildFunction, hlen]

/-- Witness for C2: a declared `<ResourceGuesser>`-style child suppresses
guessing even though `resources` is nonempty. -/
theorem explicit_declarations_win_witness :
    AdminResourcesGuesser
        { loading := false, includeDeprecated := false,
          resources := [{ name := "books", deprecated := false }],
          children := .nodes [.resourceDecl "reviews"] }
      = .adminEl (.nodes [.resourceDecl "reviews"]) :=
  explicit_declarations_win false _ _ (.resourceDecl "reviews")
    (by simp) rfl

/-- Claim C3: with `loading = false`, a single function child (render prop)
is passed through to the framework root unmodified; no filtering or
synthesis occurs, regardless of `resources`. -/
theorem render_prop_passthrough (b : Bool) (R : List Resource) (f : Nat) :
    AdminResourcesGuesser
        { loading := false, includeDeprecated := b, resources := R,
          children := .func f }
      = .adminEl (.func f) := by
  simp [AdminResourcesGuesser, getRoutesAndResourcesFromNodes,
    isSingleChildFunction]

/-- Claim C4: whenever `loading = true` the output is exactly the loading
placeholder, regardless of `children` and `resources`: the early return
precedes child scanning, reconciliation and synthesis. -/
theorem loading_renders_placeholder (b : Bool) (R : List Resource)
    (ch : Children) :
    AdminResourcesGuesser
        { loading := true, includeDeprecated := b, resources := R,
          children := ch }
      = .loadingPage := rfl

/-- Claim C5: a data-provider without an `introspect` function makes the
effect throw before any fetch: the configuration error is thrown,
`introspect()` is never called, and the state is untouched. -/
theorem missing_introspect_fatal (dp : DataProvider) (s : OrchestratorState)
    (h : dp.hasIntrospect = false) :
    runEffect dp s
      = { configErrorThrown := true, introspectCalled := false,
          state := s } := by
  simp [runEffect, h]

/-- Witness for C5 on the initial state. -/
theorem missing_introspect_fatal_witness :
    runEffect { hasIntrospect := false, outcome := .failure "boom" }
        initialState
      = { configErrorThrown := true, introspectCalled := false,
          state := initialState } :=
  missing_introspect_fatal _ _ rfl

/-- Claim C6: on a successful resolution of `introspect()` with payload
`{ data }`, the resources state is replaced wholesale with
`data.resources ?? []` (independently of the previous resources), the
pending flag is cleared and `loading` is set to false. -/
theorem success_replaces_resources (dp : DataProvider)
    (s : OrchestratorState) (d : IntrospectData)
    (h1 : dp.hasIntrospect = true) (h2 : s.introspect = true)
    (h3 : dp.outcome = .success d) :
    runEffect dp s
      = { configErrorThrown := false, introspectCalled := true,
          state := { s with resources := d.resources.getD [],
                            introspect := false, loading := false } } := by
  simp [runEffect, h1, h2, h3]

/-- Witness for C6: a fetch over a state already holding other resources
replaces them (no merge) and clears `loading`; an absent `data.resources`
defaults to the empty sequence. -/
theorem success_replaces_resources_witness :
    runEffect
        { hasIntrospect := true,
          outcome := .success
            { resources := some [{ name := "books", deprecated := false }] } }
        { resources := [{ name := "old", deprecated := false }],
          loading := true, error := none, introspect := true }
      = { configErrorThrown := false, introspectCalled := true,
          state := { resources := [{ name := "books", deprecated := false }],
                     loading := false, error := none, introspect := false } }
    ∧ runEffect
        { hasIntrospect := true, outcome := .success { resources := none } }
        initialState
      = { configErrorThrown := false, introspectCalled := true,
          state := { resources := [], loading := false, error := none,
                     introspect := false } } :=
  ⟨success_replaces_resources _ _
     { resources := some [{ name := "books", deprecated := false }] }
     rfl rfl rfl,
   success_replaces_resources _ _ { resources := none } rfl rfl rfl⟩

/-- Claim C7: when the `introspect()` future rejects with `E`, neither
`resources` nor `loading` is mutated; the error is recorded and the next
render rethrows exactly `E`, so the error boundary receives it. -/
theorem rejection_escalates (dp : DataProvider) (s : OrchestratorState)
    (e : Err) (h1 : dp.hasIntrospect = true) (h2 : s.introspect = true)
    (h3 : dp.outcome = .failure e) :
    (runEffect dp s).state.resources = s.resources
    ∧ (runEffect dp s).state.loading = s.loading
    ∧ (runEffect dp s).introspectCalled = true
    ∧ (runEffect dp s).state.error = some e
    ∧ ∀ ch b, AdminGuesserRender (runEffect dp s).state ch b
        = Except.error e := by
  simp [runEffect, h1, h2, h3, AdminGuesserRender]

/-- Witness for C7: a rejection with `"E"` on the initial state leaves
resources and loading intact and makes the next render throw `"E"`. -/
theorem rejection_escalates_witness :
    (runEffect { hasIntrospect := true, outcome := .failure "E" }
        initialState).state.resources = initialState.resources
    ∧ (runEffect { hasIntrospect := true, outcome := .failure "E" }
        initialState).state.loading = initialState.loading
    ∧ AdminGuesserRender
        (runEffect { hasIntrospect := true, outcome := .failure "E" }
          initialState).state (.nodes []) false
      = Except.error "E" := by
  have h := rejection_escalates
    { hasIntrospect := true, outcome := .failure "E" } initialState "E"
    rfl rfl rfl
  exact ⟨h.1, h.2.1, h.2.2.2.2 (.nodes []) false⟩

/-- Claim C8: invoking the shared introspection capability sets
`loading = true` and the pending flag; the subsequent successful fetch
returns to `loading = false` with resources replaced by the new result; the
memoized capability keeps its identity whenever its dependencies are
unchanged. -/
theorem capability_retrigger (dp : DataProvider) (s : OrchestratorState)
    (d : IntrospectData) (h1 : dp.hasIntrospect = true)
    (h3 : dp.outcome = .success d) :
    (capabilityIntrospect s).loading = true
    ∧ (capabilityIntrospect s).introspect = true
    ∧ (runEffect dp (capabilityIntrospect s)).state.loading = false
    ∧ (runEffect dp (capabilityIntrospect s)).state.resources
        = d.resources.getD []
    ∧ ∀ deps v fresh,
        introspectionContextMemo deps (some (deps, v)) fresh = v := by
  simp [capabilityIntrospect, runEffect, h1, h3, introspectionContextMemo]

/-- Witness for C8: refreshing after a completed fetch re-enters loading,
then the new resources replace the old ones wholesale. -/
theorem capability_retrigger_witness :
    (capabilityIntrospect
        { resources := [{ name := "old", deprecated := false }],
          loading := false, error := none, introspect := false }).loading
      = true
    ∧ (runEffect
        { hasIntrospect := true,
          outcome := .success
            { resources := some [{ name := "books", deprecated := false }] } }
        (capabilityIntrospect
          { resources := [{ name := "old", deprecated := false }],
            loading := false, error := none,
            introspect := false })).state.resources
      = [{ name := "books", deprecated := false }]
    ∧ introspectionContextMemo (1, 2) (some ((1, 2), 7)) 9 = 7 := by
  have h := capability_retrigger
    { hasIntrospect := true,
      outcome := .success
        { resources := some [{ name := "books", deprecated := false }] } }
    { resources := [{ name := "old", deprecated := false }],
      loading := false, error := none, introspect := false }
    { resources := some [{ name := "books", deprecated := false }] }
    rfl rfl
  exact ⟨h.1, h.2.2.2.1, h.2.2.2.2 (1, 2) 7 9⟩

/-- Claim C9: when the guessing branch executes, the emitted child set is,
in order, the custom-route children collected from the declared tree (an
order-preserving sublist of the declared children) followed by one generated
view per remaining resource, each keyed by that resource's name. -/
theorem guessing_branch_order (b : Bool) (R : List Resource)
    (ns : List ChildNode) (hnr : ns.filter ChildNode.isResourceDecl = []) :
    AdminResourcesGuesser
        { loading := false, includeDeprecated := b, resources := R,
          children := .nodes ns }
      = .adminEl (.nodes (ns.filter ChildNode.isCustomRoute
          ++ (if b then R else R.filter (fun r => !r.deprecated)).map
              (fun r => ChildNode.guessed r.name r.name)))
    ∧ List.Sublist (ns.filter ChildNode.isCustomRoute) ns
    ∧ ∀ c ∈ (if b then R else R.filter (fun r => !r.deprecated)).map
          (fun r => ChildNode.guessed r.name r.name),
        ∃ r : Resource, c = ChildNode.guessed r.name r.name := by
  refine ⟨?_, List.filter_sublist ns, ?_⟩
  · cases b <;>
      simp [AdminResourcesGuesser, getRoutesAndResourcesFromNodes,
        isSingleChildFunction, hnr]
  · intro c hc
    obtain ⟨r, _, hr⟩ := List.mem_map.mp hc
    exact ⟨r, hr.symm⟩

/-- Witness for C9: custom routes precede the generated views, which are
keyed by the resource names. -/
theorem guessing_branch_order_witness :
    AdminResourcesGuesser
        { loading := false, includeDeprecated := true,
          resources := [{ name := "books", deprecated := false },
                        { name := "reviews", deprecated := true }],
          children := .nodes [.customRoute 0, .other 1] }
      = .adminEl (.nodes [.customRoute 0, .guessed "books" "books",
          .guessed "reviews" "reviews"]) := by
  have h := guessing_branch_order true
    [{ name := "books", deprecated := false },
     { name := "reviews", deprecated := true }]
    [.customRoute 0, .other 1] rfl
  simpa using h.1

/-- Claim C10: the data-provider validation precedes the pending guard, so
the missing-`introspect` error is thrown on every effect execution,
whatever the pending flag; conversely, when the pending flag is false the
effect returns without calling `introspect()` and without touching state,
so each trigger causes at most one fetch. -/
theorem validation_precedes_guard (dp : DataProvider)
    (s : OrchestratorState) :
    ((runEffect dp s).configErrorThrown = true ↔ dp.hasIntrospect = false)
    ∧ (s.introspect = false → (runEffect dp s).introspectCalled = false)
    ∧ (dp.hasIntrospect = true → s.introspect = false →
        runEffect dp s
          = { configErrorThrown := false, introspectCalled := false,
              state := s }) := by
  obtain ⟨hi, o⟩ := dp
  cases hi <;> cases o <;> cases hs : s.introspect <;>
    simp [runEffect, hs]

/-- Witness for C10: a valid provider with the pending flag down performs
no fetch, and an invalid provider throws even with the flag down. -/
theorem validation_precedes_guard_witness :
    runEffect { hasIntrospect := true, outcome := .failure "e" }
        { resources := [], loading := false, error := none,
          introspect := false }
      = { configErrorThrown := false, introspectCalled := false,
          state := { resources := [], loading := false, error := none,
                     introspect := false } }
    ∧ (runEffect { hasIntrospect := false, outcome := .failure "e" }
        { resources := [], loading := false, error := none,
          introspect := false }).configErrorThrown = true :=
  ⟨(validation_precedes_guard _ _).2.2 rfl rfl,
   (validation_precedes_guard _ _).1.mpr rfl⟩

end AdminGuesserSpec
